import Mathlib

/-!
Verification of the ASP.NET Web Forms static-analysis scripts
(`analyze_viewstate.py`, `security_audit.py`, `performance_profiler.py`)
against their natural-language specification.

The Python sources are shallowly embedded below: strings are `List Char`,
byte sequences are `List Nat`, and every analysis routine becomes a pure
Lean function mirroring the Python control flow line by line.
-/

set_option maxRecDepth 100000

namespace WebFormsAudit

/-! ## Generic string / list helpers (Python `str`/`bytes` operations) -/

/-- ASCII lowercasing of one character; models the effect of Python's
`re.IGNORECASE` for the ASCII-only patterns used by the scripts. -/
def toLowerChar (c : Char) : Char :=
  if 'A' ≤ c ∧ c ≤ 'Z' then Char.ofNat (c.toNat + 32) else c

/-- Lowercase a whole string. -/
def lower (s : List Char) : List Char := s.map toLowerChar

/-- Python's substring containment test (`needle in hay`). -/
def containsSub {α : Type} [DecidableEq α] (needle : List α) : List α → Bool
  | [] => needle.isEmpty
  | c :: rest => needle.isPrefixOf (c :: rest) || containsSub needle rest

/-- Left-to-right scan for non-overlapping occurrences: `skip` is the
number of characters still covered by the previous match. -/
def countSubAux {α : Type} [DecidableEq α] (needle : List α) :
    Nat → List α → Nat
  | _, [] => 0
  | k + 1, _ :: rest => countSubAux needle k rest
  | 0, c :: rest =>
    if !needle.isEmpty && needle.isPrefixOf (c :: rest) then
      1 + countSubAux needle (needle.length - 1) rest
    else
      countSubAux needle 0 rest

/-- Python's non-overlapping substring count (`str.count` / `bytes.count`,
and `len(re.findall(lit, s))` for a literal pattern): scan left to right,
at each match skip the matched block. -/
def countSubstr {α : Type} [DecidableEq α] (needle hay : List α) : Nat :=
  countSubAux needle 0 hay

/-! ## `analyze_viewstate.py` -/

/-- Size tiers printed by `analyze_viewstate` (lines 35-42). -/
inductive SizeClass where
  | acceptable
  | warning
  | urgent
deriving DecidableEq, Repr

/-- Embedding of the size-threshold chain of `analyze_viewstate`
(lines 35-42): `size < 10000` acceptable, `elif size < 50000` warning,
`else` urgent. -/
def classifySize (size : Nat) : SizeClass :=
  if size < 10000 then SizeClass.acceptable
  else if size < 50000 then SizeClass.warning
  else SizeClass.urgent

/-- The fixed marker catalog of `analyze_viewstate` (lines 48-54), each a
2-byte pattern. -/
def markerPats : List (String × List Nat) :=
  [("DataGrid/GridView", [18, 0]),
   ("Repeater", [15, 0]),
   ("TextBox", [13, 0]),
   ("DropDownList", [14, 0]),
   ("Hidden Fields", [16, 0])]

/-- Marker occurrence counts (lines 56-57, `viewstate_bytes.count(pattern)`,
Python's non-overlapping count). -/
def markerCounts (bs : List Nat) : List (String × Nat) :=
  markerPats.map (fun p => (p.1, countSubstr p.2 bs))

/-- Decoder/analyzer output: total size, size tier, marker counts. -/
structure PayloadReport where
  size : Nat
  sizeClass : SizeClass
  counts : List (String × Nat)
deriving DecidableEq, Repr

/-- Embedding of `analyze_viewstate` (lines 23-59): the guard
`if not viewstate_bytes: return` makes it produce nothing for the empty
byte sequence; otherwise it reports size, tier and marker counts. -/
def analyze_viewstate (bs : List Nat) : Option PayloadReport :=
  if bs = [] then none
  else some ⟨bs.length, classifySize bs.length, markerCounts bs⟩

/-- Hexadecimal digit test, as used by `urllib.parse.unquote`. -/
def isHexDigit (c : Char) : Bool :=
  ('0' ≤ c ∧ c ≤ '9') ∨ ('a' ≤ c ∧ c ≤ 'f') ∨ ('A' ≤ c ∧ c ≤ 'F')

/-- Value of a hexadecimal digit. -/
def hexVal (c : Char) : Nat :=
  if '0' ≤ c ∧ c ≤ '9' then c.toNat - 48
  else if 'a' ≤ c ∧ c ≤ 'f' then c.toNat - 87
  else if 'A' ≤ c ∧ c ≤ 'F' then c.toNat - 55
  else 0

/-- Embedding of `urllib.parse.unquote` (line 15): replace each `%XY`
(two hex digits) by the character with code `16*X + Y`; malformed escapes
are left untouched. `unquote` never raises on `str` input. -/
def unquote : List Char → List Char
  | '%' :: h1 :: h2 :: rest =>
    if isHexDigit h1 && isHexDigit h2 then
      Char.ofNat (16 * hexVal h1 + hexVal h2) :: unquote rest
    else
      '%' :: unquote (h1 :: h2 :: rest)
  | c :: rest => c :: unquote rest
  | [] => []

/-- Value of a base64 alphabet character, `none` for non-alphabet. -/
def b64Val (c : Char) : Option Nat :=
  if 'A' ≤ c ∧ c ≤ 'Z' then some (c.toNat - 65)
  else if 'a' ≤ c ∧ c ≤ 'z' then some (c.toNat - 71)
  else if '0' ≤ c ∧ c ≤ '9' then some (c.toNat + 4)
  else if c = '+' then some 62
  else if c = '/' then some 63
  else none

/-- The per-character loop of `binascii.a2b_base64` in its default
non-strict mode (CPython `binascii.c`). Characters outside the alphabet
are skipped. A `=` while fewer than two data characters are pending in
the current quad is skipped; otherwise it counts as padding, and once
`quad_pos + pads` reaches 4 decoding completes successfully, ignoring
any remaining input. Each data character resets the pad count and shifts
six bits in, emitting a byte at quad positions 1, 2 and 3. Input that
ends with a partially filled quad (position 1, 2 or 3) raises
`binascii.Error` (`none` here). State: remaining input, quad position,
pending bits (`leftchar`), pads seen. -/
def a2bBase64 : List Char → Nat → Nat → Nat → Option (List Nat)
  | [], quadPos, _, _ => if quadPos = 0 then some [] else none
  | ch :: rest, quadPos, leftchar, pads =>
    if ch = '=' then
      if 2 ≤ quadPos ∧ 4 ≤ quadPos + (pads + 1) then some []
      else
        a2bBase64 rest quadPos leftchar
          (if 2 ≤ quadPos then pads + 1 else pads)
    else
      match b64Val ch with
      | none => a2bBase64 rest quadPos leftchar pads
      | some v =>
        match quadPos with
        | 0 => a2bBase64 rest 1 v 0
        | 1 =>
          (a2bBase64 rest 2 (v % 16) 0).map
            (fun t => (leftchar * 4 + v / 16) :: t)
        | 2 =>
          (a2bBase64 rest 3 (v % 4) 0).map
            (fun t => (leftchar * 16 + v / 4) :: t)
        | _ =>
          (a2bBase64 rest 0 0 0).map
            (fun t => (leftchar * 64 + v) :: t)

/-- Embedding of `base64.b64decode` on `str` input: the string is first
ASCII-encoded — raising `ValueError` (`none` here) if it contains any
non-ASCII character — and the bytes are then decoded by the non-strict
`binascii.a2b_base64` loop. -/
def b64decode (s : List Char) : Option (List Nat) :=
  if s.all (fun c => c.toNat ≤ 127) then a2bBase64 s 0 0 0 else none

/-- Embedding of `decode_viewstate` (lines 11-21): percent-decode, then
base64-decode; any decode exception is caught and turned into `None`
(our `none`, the spec's `MalformedEncoding`). -/
def decode_viewstate (s : List Char) : Option (List Nat) :=
  b64decode (unquote s)

/-- The decode-and-analyze pipeline: report produced for an input string,
if any. -/
def processPayload (s : List Char) : Option PayloadReport :=
  match decode_viewstate s with
  | none => none
  | some bs => analyze_viewstate bs

/-- Observable outcome of `main` (lines 85-92). -/
inductive MainOutcome where
  | report (r : PayloadReport)
  | failure
deriving DecidableEq, Repr

/-- Embedding of `main` (lines 85-92): `if viewstate_bytes:` is Python's
truthiness test, so both `None` (decode error) and the empty byte string
take the `Failed to decode ViewState` / `sys.exit(1)` path. -/
def mainOutcome (s : List Char) : MainOutcome :=
  match decode_viewstate s with
  | none => MainOutcome.failure
  | some bs =>
    if bs = [] then MainOutcome.failure
    else
      match analyze_viewstate bs with
      | some r => MainOutcome.report r
      | none => MainOutcome.failure

/-! ## `performance_profiler.py` -/

/-- Finding severities used by both analyzers. -/
inductive Severity where
  | critical
  | high
  | medium
  | low
deriving DecidableEq, Repr

/-- Identity of each of the five threshold findings of
`PerformanceProfiler.analyze_metrics` (lines 96-131), in source order. -/
inductive IssueKind where
  | viewstateSize
  | noOutputCache
  | manyUpdatePanels
  | manyDbCalls
  | noAsync
deriving DecidableEq, Repr

/-- One performance issue appended to `metrics['issues']`. -/
structure PerfIssue where
  severity : Severity
  kind : IssueKind
deriving DecidableEq, Repr

/-- The per-page metrics record assembled by `profile_page` (lines 39-48). -/
structure Metrics where
  viewstate_enabled : Bool
  output_cache : Bool
  server_controls : Nat
  updatepanels : Nat
  database_calls : Nat
  async_operations : Bool
deriving DecidableEq, Repr

/-- Embedding of `PerformanceProfiler.analyze_metrics` (lines 96-131):
five independent threshold rules, each appending one issue when its
condition holds; none short-circuits another. -/
def analyze_metrics (m : Metrics) : List PerfIssue :=
  (if m.viewstate_enabled = true ∧ 20 < m.server_controls then
     [PerfIssue.mk Severity.high IssueKind.viewstateSize] else []) ++
  (if m.output_cache = false ∧ 0 < m.database_calls then
     [PerfIssue.mk Severity.medium IssueKind.noOutputCache] else []) ++
  (if 5 < m.updatepanels then
     [PerfIssue.mk Severity.medium IssueKind.manyUpdatePanels] else []) ++
  (if 10 < m.database_calls then
     [PerfIssue.mk Severity.high IssueKind.manyDbCalls] else []) ++
  (if 0 < m.database_calls ∧ m.async_operations = false then
     [PerfIssue.mk Severity.low IssueKind.noAsync] else [])

/-- Embedding of `PerformanceProfiler.check_viewstate` (lines 58-62):
a case-sensitive literal containment test for `EnableViewState="false"`. -/
def check_viewstate (content : List Char) : Bool :=
  !(containsSub ("EnableViewState=\"false\"".data) content)

/-- Embedding of `check_output_cache` (lines 64-66):
`re.search('OutputCache', content, re.IGNORECASE)`. -/
def check_output_cache (content : List Char) : Bool :=
  containsSub ("outputcache".data) (lower content)

/-- Embedding of `count_server_controls` (lines 68-70):
`len(re.findall('<asp:', content, re.IGNORECASE))`. -/
def count_server_controls (content : List Char) : Nat :=
  countSubstr ("<asp:".data) (lower content)

/-- Embedding of `count_updatepanels` (lines 72-74). -/
def count_updatepanels (content : List Char) : Nat :=
  countSubstr ("<asp:updatepanel".data) (lower content)

/-- Embedding of `count_database_calls` (lines 76-90): the sum of
case-insensitive occurrence counts of five data-access API names. -/
def count_database_calls (content : List Char) : Nat :=
  countSubstr ("sqlcommand".data) (lower content) +
  countSubstr ("sqlconnection".data) (lower content) +
  countSubstr ("executereader".data) (lower content) +
  countSubstr ("executenonquery".data) (lower content) +
  countSubstr ("executescalar".data) (lower content)

/-! ## Regex-pattern matcher

The security auditor (and `check_async`) use `re.search` with patterns
built from literals, `.*`, `\s*`, `\s+` and one character class. The
tokens below embed exactly those constructs; `matchAt` is a complete
backtracking matcher, so `search` agrees with `re.search`'s boolean
result on newline-free lines. -/

/-- Python's `\s` on ASCII input. -/
def isWsChar (c : Char) : Bool :=
  c = ' ' || c = '\t' || c = '\n' || c = '\r' || c = '\x0b' || c = '\x0c'

/-- One regex token: a literal run, `.*`, `\s*`, a single `\s`
(so `\s+` is `wsOne` then `ws`), or a one-character class. -/
inductive PatTok where
  | lit : List Char → PatTok
  | star : PatTok
  | ws : PatTok
  | wsOne : PatTok
  | cls : List Char → PatTok
deriving DecidableEq, Repr

/-- Backtracking loop for `.*`: try the continuation at every suffix. -/
def tryStar (k : List Char → Bool) : List Char → Bool
  | [] => k []
  | c :: rest => k (c :: rest) || tryStar k rest

/-- Backtracking loop for `\s*`: try the continuation here, or skip one
whitespace character and repeat. -/
def tryWs (k : List Char → Bool) : List Char → Bool
  | [] => k []
  | c :: rest => k (c :: rest) || (isWsChar c && tryWs k rest)

/-- Does the token list match a prefix of `s`? Full backtracking. -/
def matchAt : List PatTok → List Char → Bool
  | [], _ => true
  | PatTok.lit l :: ps, s => l.isPrefixOf s && matchAt ps (s.drop l.length)
  | PatTok.wsOne :: ps, s =>
    match s with
    | [] => false
    | c :: rest => isWsChar c && matchAt ps rest
  | PatTok.cls l :: ps, s =>
    match s with
    | [] => false
    | c :: rest => l.contains c && matchAt ps rest
  | PatTok.ws :: ps, s => tryWs (matchAt ps) s
  | PatTok.star :: ps, s => tryStar (matchAt ps) s

/-- `re.search`: does the pattern match starting at any position? -/
def search (ps : List PatTok) : List Char → Bool
  | [] => matchAt ps []
  | c :: rest => matchAt ps (c :: rest) || search ps rest

/-- Embedding of `check_async` (lines 92-94):
`re.search(r'async\s+Task|await\s+', content)` — case-sensitive. -/
def check_async (content : List Char) : Bool :=
  search [PatTok.lit ("async".data), PatTok.wsOne, PatTok.ws,
          PatTok.lit ("Task".data)] content ||
  search [PatTok.lit ("await".data), PatTok.wsOne] content

/-- The metrics record `profile_page` (lines 39-48) builds from the markup
content and the paired code-behind content. -/
def profileMetrics (markup code : List Char) : Metrics :=
  { viewstate_enabled := check_viewstate markup
    output_cache := check_output_cache markup
    server_controls := count_server_controls markup
    updatepanels := count_updatepanels markup
    database_calls := count_database_calls code
    async_operations := check_async code }

/-! ## `security_audit.py` -/

/-- One security issue appended by `SecurityAuditor.add_issue`
(lines 123-131); the file path is fixed per scan, so a finding is its
severity, 1-based line number (0 = file level) and message. -/
structure Finding where
  severity : Severity
  line : Nat
  message : String
deriving DecidableEq, Repr

/-- Python's `content.split('\n')`: always at least one (possibly empty)
line; `""` splits to `[""]`. -/
def splitOnNl : List Char → List (List Char)
  | [] => [[]]
  | c :: rest =>
    if c = '\n' then [] :: splitOnNl rest
    else
      match splitOnNl rest with
      | [] => [[c]]
      | l :: ls => (c :: l) :: ls

/-- Pattern `SqlCommand.*\+.*Request` (lowercased for `re.IGNORECASE`). -/
def sqlPat1 : List PatTok :=
  [PatTok.lit ("sqlcommand".data), PatTok.star, PatTok.lit ("+".data),
   PatTok.star, PatTok.lit ("request".data)]

/-- Pattern `SqlCommand.*\+.*QueryString`. -/
def sqlPat2 : List PatTok :=
  [PatTok.lit ("sqlcommand".data), PatTok.star, PatTok.lit ("+".data),
   PatTok.star, PatTok.lit ("querystring".data)]

/-- Pattern `SqlCommand.*\+.*Form\[`. -/
def sqlPat3 : List PatTok :=
  [PatTok.lit ("sqlcommand".data), PatTok.star, PatTok.lit ("+".data),
   PatTok.star, PatTok.lit ("form[".data)]

/-- Pattern `"SELECT.*\+`. -/
def sqlPat4 : List PatTok :=
  [PatTok.lit ("\"select".data), PatTok.star, PatTok.lit ("+".data)]

def sqlMsg1 : String := "SQL injection: String concatenation with Request data"
def sqlMsg2 : String := "SQL injection: String concatenation with QueryString"
def sqlMsg3 : String := "SQL injection: String concatenation with Form data"
def sqlMsg4 : String := "SQL injection: String concatenation in SQL query"

/-- Findings of `check_sql_injection` (lines 46-58) on one line: the four
patterns are tried in order, each match adding a CRITICAL finding. -/
def sqlLineFindings (i : Nat) (line : List Char) : List Finding :=
  (if search sqlPat1 (lower line) = true
   then [Finding.mk Severity.critical i sqlMsg1] else []) ++
  (if search sqlPat2 (lower line) = true
   then [Finding.mk Severity.critical i sqlMsg2] else []) ++
  (if search sqlPat3 (lower line) = true
   then [Finding.mk Severity.critical i sqlMsg3] else []) ++
  (if search sqlPat4 (lower line) = true
   then [Finding.mk Severity.critical i sqlMsg4] else [])

/-- Embedding of `check_sql_injection` (lines 46-58): every line
(1-based), every pattern. -/
def check_sql_injection (lines : List (List Char)) : List Finding :=
  ((List.enumFrom 1 lines).map (fun p => sqlLineFindings p.1 p.2)).flatten

/-- Pattern `\.Text\s*=\s*Request\[`. -/
def xssPat1 : List PatTok :=
  [PatTok.lit (".text".data), PatTok.ws, PatTok.lit ("=".data),
   PatTok.ws, PatTok.lit ("request[".data)]

/-- Pattern `\.Text\s*=\s*Request\.QueryString`. -/
def xssPat2 : List PatTok :=
  [PatTok.lit (".text".data), PatTok.ws, PatTok.lit ("=".data),
   PatTok.ws, PatTok.lit ("request.querystring".data)]

/-- Pattern `Response\.Write\(Request`. -/
def xssPat3 : List PatTok := [PatTok.lit ("response.write(request".data)]

/-- Pattern `innerHTML.*Request`. -/
def xssPat4 : List PatTok :=
  [PatTok.lit ("innerhtml".data), PatTok.star, PatTok.lit ("request".data)]

def xssMsg1 : String := "XSS: Direct assignment from Request without encoding"
def xssMsg2 : String :=
  "XSS: Direct assignment from QueryString without encoding"
def xssMsg3 : String := "XSS: Response.Write with Request data"
def xssMsg4 : String := "XSS: Direct HTML injection from Request"

/-- The suppression test of `check_xss` (line 73):
`re.search(r'HtmlEncode|AntiXssEncoder', line, re.IGNORECASE)`. -/
def encodingMarker (line : List Char) : Bool :=
  containsSub ("htmlencode".data) (lower line) ||
  containsSub ("antixssencoder".data) (lower line)

/-- Findings of `check_xss` (lines 60-74) on one line: a matching pattern
adds a HIGH finding unless the encoding marker also matches the line; the
marker test is the same for every pattern. -/
def xssLineFindings (i : Nat) (line : List Char) : List Finding :=
  if encodingMarker line = true then []
  else
    (if search xssPat1 (lower line) = true
     then [Finding.mk Severity.high i xssMsg1] else []) ++
    (if search xssPat2 (lower line) = true
     then [Finding.mk Severity.high i xssMsg2] else []) ++
    (if search xssPat3 (lower line) = true
     then [Finding.mk Severity.high i xssMsg3] else []) ++
    (if search xssPat4 (lower line) = true
     then [Finding.mk Severity.high i xssMsg4] else [])

/-- Embedding of `check_xss` (lines 60-74). -/
def check_xss (lines : List (List Char)) : List Finding :=
  ((List.enumFrom 1 lines).map (fun p => xssLineFindings p.1 p.2)).flatten

def macMsg : String := "ViewState MAC disabled - vulnerable to tampering"
def encMsg : String := "ViewState encryption not configured"

/-- Embedding of `check_viewstate_security` (lines 76-85): file-scoped,
gated on `.aspx` occurring in the path (case-sensitive `in`); the
encryption rule is an absence check on the whole content. -/
def check_viewstate_security (path content : List Char) : List Finding :=
  if containsSub (".aspx".data) path = true then
    (if containsSub ("enableViewStateMac=\"false\"".data) content = true
     then [Finding.mk Severity.high 0 macMsg] else []) ++
    (if containsSub ("viewStateEncryptionMode".data) content = false
     then [Finding.mk Severity.medium 0 encMsg] else [])
  else []

def authMsg1 : String := "Authentication disabled"
def authMsg2 : String := "Anonymous access allowed globally"

/-- Embedding of `check_authentication` (lines 87-96): gated on
`web.config` occurring in the lowercased path. -/
def check_authentication (path content : List Char) : List Finding :=
  if containsSub ("web.config".data) (lower path) = true then
    (if containsSub ("<authentication mode=\"None\"".data) content = true
     then [Finding.mk Severity.critical 0 authMsg1] else []) ++
    (if containsSub ("<allow users=\"*\"".data) content = true
     then [Finding.mk Severity.high 0 authMsg2] else [])
  else []

/-- Pattern `password\s*=\s*["\x27]`. -/
def sensPat1 : List PatTok :=
  [PatTok.lit ("password".data), PatTok.ws, PatTok.lit ("=".data),
   PatTok.ws, PatTok.cls ['"', '\'']]

/-- Pattern `connectionString.*password`. -/
def sensPat2 : List PatTok :=
  [PatTok.lit ("connectionstring".data), PatTok.star,
   PatTok.lit ("password".data)]

/-- Pattern `ViewState\[".*[Pp]assword`. -/
def sensPat3 : List PatTok :=
  [PatTok.lit ("viewstate[\"".data), PatTok.star,
   PatTok.lit ("password".data)]

/-- Pattern `ViewState\[".*[Cc]redit`. -/
def sensPat4 : List PatTok :=
  [PatTok.lit ("viewstate[\"".data), PatTok.star, PatTok.lit ("credit".data)]

def sensMsg1 : String := "Hardcoded password detected"
def sensMsg2 : String := "Password in connection string"
def sensMsg3 : String := "Password stored in ViewState"
def sensMsg4 : String := "Credit card data in ViewState"

/-- Findings of `check_sensitive_data` (lines 98-110) on one line. -/
def sensLineFindings (i : Nat) (line : List Char) : List Finding :=
  (if search sensPat1 (lower line) = true
   then [Finding.mk Severity.critical i sensMsg1] else []) ++
  (if search sensPat2 (lower line) = true
   then [Finding.mk Severity.critical i sensMsg2] else []) ++
  (if search sensPat3 (lower line) = true
   then [Finding.mk Severity.critical i sensMsg3] else []) ++
  (if search sensPat4 (lower line) = true
   then [Finding.mk Severity.critical i sensMsg4] else [])

/-- Embedding of `check_sensitive_data` (lines 98-110). -/
def check_sensitive_data (lines : List (List Char)) : List Finding :=
  ((List.enumFrom 1 lines).map (fun p => sensLineFindings p.1 p.2)).flatten

def ceMsg : String := "Custom errors disabled - stack traces exposed"
def dbgMsg : String := "Debug mode enabled in production"

/-- The literal `customErrors mode="Off"` tested on line 115 (no leading
angle bracket in the source). -/
def ceLit : List Char := "customErrors mode=\"Off\"".data

/-- The literal `<compilation debug="true"` tested on line 119 (note the
leading angle bracket). -/
def dbgLit : List Char := "<compilation debug=\"true\"".data

/-- Embedding of `check_error_handling` (lines 112-121): gated on
`web.config` in the lowercased path; two independent case-sensitive
substring rules. -/
def check_error_handling (path content : List Char) : List Finding :=
  if containsSub ("web.config".data) (lower path) = true then
    (if containsSub ceLit content = true
     then [Finding.mk Severity.high 0 ceMsg] else []) ++
    (if containsSub dbgLit content = true
     then [Finding.mk Severity.medium 0 dbgMsg] else [])
  else []

/-- Embedding of `scan_file` (lines 28-44): split into lines, then run
the six checks in source order and concatenate their findings. -/
def scan_file (path content : List Char) : List Finding :=
  let lines := splitOnNl content
  check_sql_injection lines ++
  check_xss lines ++
  check_viewstate_security path content ++
  check_authentication path content ++
  check_sensitive_data lines ++
  check_error_handling path content

/-! ## Concrete scenario inputs -/

/-- Markup that disables viewstate only in lowercase spelling and holds 21
server-control tags. -/
def lcMarkup : List Char :=
  ("<page enableviewstate=\"false\">".data) ++
    (List.replicate 21 ("<asp:Button/>".data)).flatten

/-- The SQL-injection scenario line from the spec. -/
def sqlLineStr : List Char :=
  ("SqlCommand cmd = new SqlCommand(\"SELECT * FROM x WHERE id=\" + " ++
    "Request.QueryString[\"id\"]);").data

/-- A line matching both a SQL-injection pattern and an XSS pattern while
also containing the `HtmlEncode` suppression marker. -/
def mixedLine : List Char :=
  "SqlCommand q = \"x\" + Response.Write(Request.y); HtmlEncode".data

/-- Configuration content holding both marker strings quoted by the spec,
but without the `<` that the compilation-debug check requires. -/
def cfgNoAngle : List Char :=
  "customErrors mode=\"Off\" compilation debug=\"true\"".data

/-- Configuration content holding the custom-errors marker and the full
`<compilation debug="true"` marker. -/
def cfgBoth : List Char :=
  "<customErrors mode=\"Off\" /> <compilation debug=\"true\">".data

/-! ## Theorems -/

/-- C1: size classification is exactly three-tier — `n < 10000` is
acceptable, `10000 ≤ n < 50000` is warning, `n ≥ 50000` is urgent — and
the boundary sizes 9999, 10000, 49999, 50000 map to acceptable, warning,
warning, urgent respectively. -/
theorem c1_size_classification :
    (∀ n : Nat,
      (classifySize n = SizeClass.acceptable ↔ n < 10000) ∧
      (classifySize n = SizeClass.warning ↔ 10000 ≤ n ∧ n < 50000) ∧
      (classifySize n = SizeClass.urgent ↔ 50000 ≤ n)) ∧
    classifySize 9999 = SizeClass.acceptable ∧
    classifySize 10000 = SizeClass.warning ∧
    classifySize 49999 = SizeClass.warning ∧
    classifySize 50000 = SizeClass.urgent := by
  refine ⟨fun n => ?_, by decide, by decide, by decide, by decide⟩
  unfold classifySize
  split_ifs with h1 h2 <;>
    refine ⟨?_, ?_, ?_⟩ <;> simp <;> omega

/-- C3: whenever percent-decoding plus base64-decoding fails, the decoder
returns the failure outcome (`none`, the spec's `MalformedEncoding`) and
the pipeline produces no report, partial or otherwise. -/
theorem c3_malformed_total_failure (s : List Char)
    (h : b64decode (unquote s) = none) :
    decode_viewstate s = none ∧ processPayload s = none ∧
      mainOutcome s = MainOutcome.failure := by
  have hd : decode_viewstate s = none := h
  exact ⟨hd, by simp [processPayload, hd], by simp [mainOutcome, hd]⟩

/-- C3 witness: the string "A" is not valid base64 (lone data character),
and the decoder reports failure on it. -/
theorem c3_malformed_witness :
    b64decode (unquote ("A".data)) = none ∧
      (decode_viewstate ("A".data) = none ∧
        processPayload ("A".data) = none ∧
        mainOutcome ("A".data) = MainOutcome.failure) :=
  ⟨by decide, c3_malformed_total_failure ("A".data) (by decide)⟩

/-- C7: the empty string is valid base64 and decodes to the empty byte
sequence, yet the analyzer's truthiness guard treats it as a failure:
`analyze_viewstate` produces no report and `main` takes the
`Failed to decode ViewState` path, instead of the size-0 acceptable
report with all marker counts zero that the spec requires. -/
theorem c7_empty_payload_divergence :
    decode_viewstate ("".data) = some [] ∧
    analyze_viewstate [] = none ∧
    mainOutcome ("".data) = MainOutcome.failure ∧
    processPayload ("".data) = none ∧
    classifySize 0 = SizeClass.acceptable ∧
    markerCounts [] =
      [("DataGrid/GridView", 0), ("Repeater", 0), ("TextBox", 0),
       ("DropDownList", 0), ("Hidden Fields", 0)] := by
  decide

/-- C9: the decode-and-analyze pipeline is a pure function of its input —
two runs on equal input strings yield identical reports and identical
`main` outcomes. -/
theorem c9_decoder_deterministic (s t : List Char) (h : s = t) :
    processPayload s = processPayload t ∧ mainOutcome s = mainOutcome t := by
  subst h
  exact ⟨rfl, rfl⟩

/-- C9 witness: determinism instantiated at the valid base64 payload
"/wE=". -/
theorem c9_deterministic_witness :
    ("/wE=".data : List Char) = ("/wE=".data) ∧
      (processPayload ("/wE=".data) = processPayload ("/wE=".data) ∧
        mainOutcome ("/wE=".data) = mainOutcome ("/wE=".data)) :=
  ⟨rfl, c9_decoder_deterministic ("/wE=".data) ("/wE=".data) rfl⟩

/-- C2: each of the five threshold findings of `analyze_metrics` is
present iff its boolean predicate holds — (1) viewstate enabled and more
than 20 server controls gives HIGH, (2) no output caching and at least one
database call gives MEDIUM, (3) more than 5 update panels gives MEDIUM,
(4) more than 10 database calls gives HIGH, (5) database calls without
async gives LOW. Since each membership is equivalent to its own predicate
alone, negating a single clause removes exactly that finding and no
other. -/
theorem c2_threshold_rules (m : Metrics) :
    (PerfIssue.mk Severity.high IssueKind.viewstateSize ∈ analyze_metrics m ↔
      m.viewstate_enabled = true ∧ 20 < m.server_controls) ∧
    (PerfIssue.mk Severity.medium IssueKind.noOutputCache ∈ analyze_metrics m ↔
      m.output_cache = false ∧ 0 < m.database_calls) ∧
    (PerfIssue.mk Severity.medium IssueKind.manyUpdatePanels ∈
        analyze_metrics m ↔ 5 < m.updatepanels) ∧
    (PerfIssue.mk Severity.high IssueKind.manyDbCalls ∈ analyze_metrics m ↔
      10 < m.database_calls) ∧
    (PerfIssue.mk Severity.low IssueKind.noAsync ∈ analyze_metrics m ↔
      0 < m.database_calls ∧ m.async_operations = false) := by
  unfold analyze_metrics
  split_ifs <;> simp_all

/-- C2 witness: instantiated at a metrics record that fires rules 1, 2
and 5 only. -/
theorem c2_threshold_witness :
    (PerfIssue.mk Severity.high IssueKind.viewstateSize ∈
        analyze_metrics (Metrics.mk true false 21 0 1 false) ↔
      (Metrics.mk true false 21 0 1 false).viewstate_enabled = true ∧
        20 < (Metrics.mk true false 21 0 1 false).server_controls) ∧
    (PerfIssue.mk Severity.medium IssueKind.noOutputCache ∈
        analyze_metrics (Metrics.mk true false 21 0 1 false) ↔
      (Metrics.mk true false 21 0 1 false).output_cache = false ∧
        0 < (Metrics.mk true false 21 0 1 false).database_calls) ∧
    (PerfIssue.mk Severity.medium IssueKind.manyUpdatePanels ∈
        analyze_metrics (Metrics.mk true false 21 0 1 false) ↔
      5 < (Metrics.mk true false 21 0 1 false).updatepanels) ∧
    (PerfIssue.mk Severity.high IssueKind.manyDbCalls ∈
        analyze_metrics (Metrics.mk true false 21 0 1 false) ↔
      10 < (Metrics.mk true false 21 0 1 false).database_calls) ∧
    (PerfIssue.mk Severity.low IssueKind.noAsync ∈
        analyze_metrics (Metrics.mk true false 21 0 1 false) ↔
      0 < (Metrics.mk true false 21 0 1 false).database_calls ∧
        (Metrics.mk true false 21 0 1 false).async_operations = false) :=
  c2_threshold_rules (Metrics.mk true false 21 0 1 false)

/-- C10: `check_viewstate` is a case-sensitive literal test — viewstate is
reported enabled iff the content does not contain the exact string
`EnableViewState="false"` — so markup disabling it in lowercase is still
reported enabled and, with 21 server controls, still triggers the HIGH
state-size threshold finding. -/
theorem c10_viewstate_case_sensitive :
    (∀ content : List Char,
      check_viewstate content = true ↔
        containsSub ("EnableViewState=\"false\"".data) content = false) ∧
    check_viewstate lcMarkup = true ∧
    count_server_controls lcMarkup = 21 ∧
    PerfIssue.mk Severity.high IssueKind.viewstateSize ∈
      analyze_metrics (profileMetrics lcMarkup []) := by
  refine ⟨fun content => ?_, by decide, by decide, by decide⟩
  unfold check_viewstate
  cases h : containsSub ("EnableViewState=\"false\"".data) content <;> simp

/-- C4 counterexample: on the spec's scenario line, three of the four
SQL-injection patterns match (Request-concatenation,
QueryString-concatenation and SELECT-concatenation), so the scan yields
three CRITICAL findings at line 1, not exactly one. -/
theorem c4_injection_counterexample :
    scan_file ("Page.cs".data) sqlLineStr =
      [Finding.mk Severity.critical 1 sqlMsg1,
       Finding.mk Severity.critical 1 sqlMsg2,
       Finding.mk Severity.critical 1 sqlMsg4] ∧
    (scan_file ("Page.cs".data) sqlLineStr).length ≠ 1 := by
  decide

/-- C4 amended: scanning an input containing exactly the scenario line
yields exactly three CRITICAL injection findings located at that line,
one per matching pattern. -/
theorem c4_injection_amended :
    scan_file ("Page.cs".data) sqlLineStr =
      [Finding.mk Severity.critical 1 sqlMsg1,
       Finding.mk Severity.critical 1 sqlMsg2,
       Finding.mk Severity.critical 1 sqlMsg4] := by
  decide

/-- On a one-line input, `check_xss` reduces to the per-line rule. -/
theorem check_xss_singleton (line : List Char) :
    check_xss [line] = xssLineFindings 1 line := by
  simp [check_xss, List.enumFrom]

/-- C5: an XSS rule produces its HIGH finding on a line iff the rule's
pattern matches and the encoding-applied marker does not; the suppression
is local to the XSS family — on a line matching a SQL-injection pattern,
an XSS pattern and the `HtmlEncode` marker, the CRITICAL SQL finding is
still emitted while the XSS finding is suppressed. -/
theorem c5_xss_suppression :
    (∀ line : List Char,
      ((Finding.mk Severity.high 1 xssMsg1 ∈ check_xss [line]) ↔
        (search xssPat1 (lower line) = true ∧ encodingMarker line = false)) ∧
      ((Finding.mk Severity.high 1 xssMsg2 ∈ check_xss [line]) ↔
        (search xssPat2 (lower line) = true ∧ encodingMarker line = false)) ∧
      ((Finding.mk Severity.high 1 xssMsg3 ∈ check_xss [line]) ↔
        (search xssPat3 (lower line) = true ∧ encodingMarker line = false)) ∧
      ((Finding.mk Severity.high 1 xssMsg4 ∈ check_xss [line]) ↔
        (search xssPat4 (lower line) = true ∧ encodingMarker line = false))) ∧
    scan_file ("Code.cs".data) mixedLine =
      [Finding.mk Severity.critical 1 sqlMsg1] := by
  refine ⟨fun line => ?_, by decide⟩
  rw [check_xss_singleton]
  unfold xssLineFindings
  by_cases hm : encodingMarker line = true
  · simp [hm]
  · have hm' : encodingMarker line = false := by
      revert hm; cases encodingMarker line <;> simp
    by_cases h1 : search xssPat1 (lower line) = true <;>
    by_cases h2 : search xssPat2 (lower line) = true <;>
    by_cases h3 : search xssPat3 (lower line) = true <;>
    by_cases h4 : search xssPat4 (lower line) = true <;>
    simp_all [xssMsg1, xssMsg2, xssMsg3, xssMsg4]

/-- C6 counterexample: scanning an empty `.aspx` file is not finding-free
— the file-scoped viewstate-encryption rule is an absence check and fires
on empty content, producing one MEDIUM finding. -/
theorem c6_empty_counterexample :
    scan_file ("Default.aspx".data) ("".data) =
      [Finding.mk Severity.medium 0 encMsg] ∧
    scan_file ("Default.aspx".data) ("".data) ≠ [] := by
  decide

/-- C6 amended: applying all rules to empty content produces zero
findings unless the file path contains `.aspx`, in which case exactly the
MEDIUM viewstate-encryption finding is produced. -/
theorem c6_empty_amended (path : List Char) :
    scan_file path [] =
      (if containsSub (".aspx".data) path = true
       then [Finding.mk Severity.medium 0 encMsg] else []) := by
  by_cases hp : containsSub (".aspx".data) path = true <;>
  by_cases hq : containsSub ("web.config".data) (lower path) = true <;>
  simp [scan_file, check_viewstate_security, check_authentication,
        check_error_handling, hp, hq] <;>
  decide

/-- C8 counterexample: configuration content containing both quoted
markers verbatim, but where `compilation debug="true"` is not preceded by
`<`, yields only the HIGH custom-errors finding — the MEDIUM debug-mode
finding requires the leading `<` of `<compilation debug="true"`. -/
theorem c8_config_counterexample :
    scan_file ("web.config".data) cfgNoAngle =
      [Finding.mk Severity.high 0 ceMsg] ∧
    Finding.mk Severity.medium 0 dbgMsg ∉
      scan_file ("web.config".data) cfgNoAngle := by
  decide

/-- C8 amended: for a configuration file, the HIGH custom-errors finding
fires iff the content contains `customErrors mode="Off"`, and the MEDIUM
debug-mode finding fires iff it contains `<compilation debug="true"`
(with the leading angle bracket); each fires independently of the
other. -/
theorem c8_config_amended (path content : List Char)
    (h : containsSub ("web.config".data) (lower path) = true) :
    (Finding.mk Severity.high 0 ceMsg ∈ check_error_handling path content ↔
      containsSub ceLit content = true) ∧
    (Finding.mk Severity.medium 0 dbgMsg ∈ check_error_handling path content ↔
      containsSub dbgLit content = true) := by
  unfold check_error_handling
  by_cases h1 : containsSub ceLit content = true <;>
  by_cases h2 : containsSub dbgLit content = true <;>
  simp_all

/-- C8 witness: the amended rule instantiated at a `web.config` file
containing both full markers, where both findings fire. -/
theorem c8_config_witness :
    containsSub ("web.config".data) (lower ("web.config".data)) = true ∧
      ((Finding.mk Severity.high 0 ceMsg ∈
          check_error_handling ("web.config".data) cfgBoth ↔
        containsSub ceLit cfgBoth = true) ∧
       (Finding.mk Severity.medium 0 dbgMsg ∈
          check_error_handling ("web.config".data) cfgBoth ↔
        containsSub dbgLit cfgBoth = true)) :=
  ⟨by decide, c8_config_amended ("web.config".data) cfgBoth (by decide)⟩

end WebFormsAudit
